import Mathlib

/-!
Formal model of the QuickBooksImporter repository (config.py,
quickbooks_client.py, models.py, import_script.py).

Shallow embedding conventions:
* Python `Decimal` money values become `ℚ` (exact, non-floating arithmetic).
* Dates become `Nat` (their value never influences control flow).
* Optional remote fields become `Option _`; Python truthiness of an optional
  string (`None` and `""` are falsy) is `strTruthy`.
* A remote SDK `Ref` object (ItemRef, VendorRef, TaxCodeRef) is modelled by
  its string `value`; `none` covers both a missing `Ref` object and a falsy
  value wherever the source tests `not ref or not ref.value`.
* The SQLAlchemy session becomes explicit `DBState` passing.  `session.add`
  appends a row, `session.flush` is modelled by assigning the row its id
  (`nextId`) at construction time, and the per-invoice commit/rollback
  boundary of `process_imports` is the `committed`/`pending` pair in
  `RunState`: a successful `db.commit()` copies `pending` into `committed`,
  `db.rollback()` restores `pending` from `committed`.
* Remote calls that the source wraps in try/except returning `None`/`[]`
  (PurchaseOrder.get, Vendor.get, Item.get, attachment query/download, blob
  upload) are functions into `Option`/`List` inside the `Remote` world.
* Python code that raises (`get_or_create_supplier`, `get_or_create_material`,
  the explicit `raise Exception` sites of `process_imports`) returns
  `Except String _`; the per-invoice `try/except` block catches the error,
  rolls back and counts the invoice as Failed.
-/

deriving instance DecidableEq for Except

namespace QBImport

/-- Python truthiness of an optional string: None and the empty string are falsy. -/
def strTruthy : Option String → Bool
  | none => false
  | some s => !s.isEmpty

/-- Python truthiness of the optional `limit` argument: None and 0 are falsy. -/
def natOptTruthy : Option Nat → Bool
  | none => false
  | some n => n != 0

/-! ## Remote (QuickBooks) records -/

/-- A linked transaction entry on a remote invoice (`invoice.LinkedTxn`). -/
structure QBLinkedTxn where
  txnType : String
  txnId : String
deriving DecidableEq

/-- Remote transaction tax detail (`TxnTaxDetail`). -/
structure QBTaxDetail where
  totalTax : ℚ
deriving DecidableEq

/-- The item-based detail of a remote line
(`ItemBasedExpenseLineDetail` / `SalesItemLineDetail`). -/
structure QBItemLineDetail where
  itemRef : Option String
  taxCodeRef : Option String
  qty : Option ℚ
  unitPrice : Option ℚ
deriving DecidableEq

/-- A remote document line. `detail` is only consulted when `detailType`
designates an item-based line, matching the source's attribute access. -/
structure QBLine where
  detailType : String
  description : Option String
  detail : QBItemLineDetail
deriving DecidableEq

/-- A remote invoice record. -/
structure QBInvoice where
  id : String
  docNumber : Option String
  txnDate : Nat
  dueDate : Nat
  balance : ℚ
  totalAmt : ℚ
  txnTaxDetail : Option QBTaxDetail
  customerMemo : Option String
  privateNote : Option String
  linkedTxn : List QBLinkedTxn
  lines : List QBLine
deriving DecidableEq

/-- A remote purchase-order record. -/
structure QBPurchaseOrder where
  id : String
  docNumber : Option String
  txnDate : Nat
  poStatus : String
  totalAmt : ℚ
  txnTaxDetail : Option QBTaxDetail
  privateNote : Option String
  memo : Option String
  vendorRef : Option String
  lines : List QBLine
deriving DecidableEq

/-- A remote vendor record.  `email`/`phone` already carry the
`PrimaryEmailAddr.Address if ... else None` projection of the source. -/
structure QBVendor where
  id : String
  displayName : Option String
  email : Option String
  phone : Option String
deriving DecidableEq

/-- A remote item record (`quickbooks.objects.item.Item`). -/
structure QBItem where
  id : String
  name : Option String
  itemType : String
deriving DecidableEq

/-- Remote attachment metadata (`Attachable`). -/
structure QBAttachable where
  fileName : Option String
  fileAccessUri : Option String
deriving DecidableEq

/-- The external world: remote document source, HTTP download and the blob
upload client.  `none` results model the exception paths the source catches. -/
structure Remote where
  invoices : List QBInvoice
  fetchLpo : String → Option QBPurchaseOrder
  fetchSupplier : String → Option QBVendor
  fetchItem : String → Option QBItem
  fetchAttachments : String → String → List QBAttachable
  httpGet : String → Option String
  blobClient : Option (String → String → Option String)

/-! ## Local store rows (models.py) -/

/-- Row of the `suppliers` table. -/
structure SupplierRow where
  id : Nat
  name : String
  email : Option String
  phone : Option String
deriving DecidableEq

/-- Row of the `materials` table. -/
structure MaterialRow where
  id : Nat
  name : String
  unit : String
deriving DecidableEq

/-- Row of the `projects` table. -/
structure ProjectRow where
  id : Nat
  name : String
deriving DecidableEq

/-- Row of the `users` table. -/
structure UserRow where
  id : Nat
  email : String
  hashed_password : String
deriving DecidableEq

/-- Row of the `lpos` table. -/
structure LPORow where
  id : Nat
  lpo_number : String
  lpo_date : Nat
  status : String
  subtotal : ℚ
  tax_total : ℚ
  grand_total : ℚ
  message_to_supplier : Option String
  memo : Option String
  payment_mode : Option String
  supplier_id : Nat
  project_id : Nat
  created_by_id : Nat
deriving DecidableEq

/-- Row of the `lpo_items` table. -/
structure LPOItemRow where
  id : Nat
  description : Option String
  quantity : ℚ
  rate : ℚ
  tax_rate : ℚ
  lpo_id : Nat
  material_id : Nat
deriving DecidableEq

/-- Row of the `lpo_attachments` table. -/
structure LPOAttachmentRow where
  id : Nat
  blob_url : String
  file_name : String
  lpo_id : Nat
deriving DecidableEq

/-- Row of the `invoices` table. -/
structure InvoiceRow where
  id : Nat
  invoice_number : String
  invoice_date : Nat
  invoice_due_date : Nat
  lpo_id : Nat
  status : String
  subtotal : ℚ
  tax_total : ℚ
  grand_total : ℚ
  message_to_customer : Option String
  memo : Option String
  payment_mode : Option String
  supplier_id : Nat
  project_id : Nat
  created_by_id : Nat
deriving DecidableEq

/-- Row of the `invoice_items` table. -/
structure InvoiceItemRow where
  id : Nat
  description : Option String
  quantity : ℚ
  rate : ℚ
  tax_rate : ℚ
  invoice_id : Nat
  material_id : Nat
deriving DecidableEq

/-- Row of the `invoice_attachments` table. -/
structure InvoiceAttachmentRow where
  id : Nat
  blob_url : String
  file_name : String
  invoice_id : Nat
deriving DecidableEq

/-- The local relational store.  `nextId` models the generated surrogate
identifiers handed out at flush time. -/
structure DBState where
  nextId : Nat
  suppliers : List SupplierRow
  materials : List MaterialRow
  projects : List ProjectRow
  users : List UserRow
  lpos : List LPORow
  lpo_items : List LPOItemRow
  lpo_attachments : List LPOAttachmentRow
  invoices : List InvoiceRow
  invoice_items : List InvoiceItemRow
  invoice_attachments : List InvoiceAttachmentRow
deriving DecidableEq

/-! ## Configuration (config.py) -/

/-- QuickBooks credential environment, mirroring the `QB_...` settings. -/
structure Config where
  qb_client_id : Option String
  qb_client_secret : Option String
  qb_access_token : Option String
  qb_refresh_token : Option String
  qb_realm_id : Option String
deriving DecidableEq

/-- Source: config.all_qb_keys_present — Python `all([...])` over the five
main keys, each judged by truthiness. -/
def all_qb_keys_present (c : Config) : Bool :=
  strTruthy c.qb_client_id && strTruthy c.qb_client_secret &&
    strTruthy c.qb_access_token && strTruthy c.qb_refresh_token &&
    strTruthy c.qb_realm_id

/-! ## quickbooks_client.py -/

/-- Query the remote invoice list.  Source: quickbooks_client.get_invoices —
with a truthy limit the query carries `MAXRESULTS limit`, otherwise the full
paginated list is returned.  (Remote errors return `[]` in the source; here
the remote list is the world's data.) -/
def get_invoices (rem : Remote) (limit : Option Nat) : List QBInvoice :=
  if natOptTruthy limit then rem.invoices.take (limit.getD 0) else rem.invoices

/-- Loop body of get_lpo_for_invoice: scan the linked-transaction list for the
first entry of type "PurchaseOrder" and fetch it; a failed fetch returns
`none` without trying any later entry, exactly as the source's
`return None` inside the `except` clause. -/
def lpo_txn_scan (rem : Remote) : List QBLinkedTxn → Option QBPurchaseOrder
  | [] => none
  | t :: rest =>
    if t.txnType == "PurchaseOrder" then rem.fetchLpo t.txnId
    else lpo_txn_scan rem rest

/-- Source: quickbooks_client.get_lpo_for_invoice. -/
def get_lpo_for_invoice (rem : Remote) (inv : QBInvoice) : Option QBPurchaseOrder :=
  lpo_txn_scan rem inv.linkedTxn

/-- Source: quickbooks_client.download_attachment — `None` without a
FileAccessUri, otherwise the (fallible) authenticated GET. -/
def download_attachment (rem : Remote) (att : QBAttachable) : Option String :=
  if !strTruthy att.fileAccessUri then none
  else rem.httpGet (att.fileAccessUri.getD "")

/-! ## import_script.py helpers -/

/-- Source: import_script.upload_attachment_to_azure — `None` when the blob
service client is unavailable or the upload raises, otherwise the blob URL. -/
def upload_attachment_to_azure (rem : Remote) (fileName content : String) :
    Option String :=
  match rem.blobClient with
  | none => none
  | some up => up fileName content

/-- Source: import_script.get_or_create_supplier. -/
def get_or_create_supplier (s : DBState) (v : QBVendor) :
    Except String (SupplierRow × DBState) :=
  if !strTruthy v.displayName then
    .error ("QB Supplier ID " ++ v.id ++ " has no DisplayName.")
  else
    let supplier_name := v.displayName.getD ""
    match s.suppliers.find? (fun r => r.name == supplier_name) with
    | some db_supplier => .ok (db_supplier, s)
    | none =>
      let new_supplier : SupplierRow :=
        { id := s.nextId, name := supplier_name, email := v.email, phone := v.phone }
      .ok (new_supplier,
        { s with nextId := s.nextId + 1, suppliers := s.suppliers ++ [new_supplier] })

/-- Source: import_script.get_or_create_material, including the fixed
QB-item-type → unit mapping (Service → "service", Inventory → "each",
default "nos"). -/
def get_or_create_material (s : DBState) (it : QBItem) :
    Except String (MaterialRow × DBState) :=
  if !strTruthy it.name then
    .error ("QB Item ID " ++ it.id ++ " has no Name.")
  else
    let material_name := it.name.getD ""
    match s.materials.find? (fun r => r.name == material_name) with
    | some db_material => .ok (db_material, s)
    | none =>
      let unit :=
        if it.itemType == "Service" then "service"
        else if it.itemType == "Inventory" then "each"
        else "nos"
      let new_material : MaterialRow :=
        { id := s.nextId, name := material_name, unit := unit }
      .ok (new_material,
        { s with nextId := s.nextId + 1, materials := s.materials ++ [new_material] })

/-- Source: import_script.get_default_project. -/
def get_default_project (s : DBState) : ProjectRow × DBState :=
  match s.projects.find? (fun r => r.name == "Default Imported Project") with
  | some db_project => (db_project, s)
  | none =>
    let db_project : ProjectRow := { id := s.nextId, name := "Default Imported Project" }
    (db_project,
      { s with nextId := s.nextId + 1, projects := s.projects ++ [db_project] })

/-- Source: import_script.get_default_user. -/
def get_default_user (s : DBState) : UserRow × DBState :=
  match s.users.find? (fun r => r.email == "import_admin@yourcompany.com") with
  | some db_user => (db_user, s)
  | none =>
    let db_user : UserRow :=
      { id := s.nextId, email := "import_admin@yourcompany.com",
        hashed_password := "!!!SET-A-DUMMY-PASSWORD-HERE!!!" }
    (db_user, { s with nextId := s.nextId + 1, users := s.users ++ [db_user] })

/-- Tax-rate derivation shared verbatim by process_lpo_items (lines 156-160)
and process_invoice_items (lines 191-193): 0.00 unless a TaxCodeRef is
present whose value differs from "NON", in which case a flat 0.05. -/
def line_tax_rate (d : QBItemLineDetail) : ℚ :=
  match d.taxCodeRef with
  | some c => if c != "NON" then (0.05 : ℚ) else 0
  | none => 0

/-- Source: import_script.process_lpo_items.  Item-based expense lines are
assembled; a missing or unresolvable ItemRef skips the line; material
resolution may raise. -/
def process_lpo_items (rem : Remote) (lpoId : Nat) :
    List QBLine → DBState → Except String DBState
  | [], s => .ok s
  | line :: rest, s =>
    if line.detailType == "ItemBasedExpenseLineDetail" then
      let d := line.detail
      if !strTruthy d.itemRef then process_lpo_items rem lpoId rest s
      else
        match rem.fetchItem (d.itemRef.getD "") with
        | none => process_lpo_items rem lpoId rest s
        | some qb_item =>
          match get_or_create_material s qb_item with
          | .error e => .error e
          | .ok (db_material, s1) =>
            let lpo_item : LPOItemRow :=
              { id := s1.nextId, description := line.description,
                quantity := d.qty.getD 0, rate := d.unitPrice.getD 0,
                tax_rate := line_tax_rate d, lpo_id := lpoId,
                material_id := db_material.id }
            process_lpo_items rem lpoId rest
              { s1 with
                nextId := s1.nextId + 1
                lpo_items := s1.lpo_items ++ [lpo_item] }
    else process_lpo_items rem lpoId rest s

/-- Source: import_script.process_invoice_items (sales-item lines). -/
def process_invoice_items (rem : Remote) (invoiceId : Nat) :
    List QBLine → DBState → Except String DBState
  | [], s => .ok s
  | line :: rest, s =>
    if line.detailType == "SalesItemLineDetail" then
      let d := line.detail
      if !strTruthy d.itemRef then process_invoice_items rem invoiceId rest s
      else
        match rem.fetchItem (d.itemRef.getD "") with
        | none => process_invoice_items rem invoiceId rest s
        | some qb_item =>
          match get_or_create_material s qb_item with
          | .error e => .error e
          | .ok (db_material, s1) =>
            let inv_item : InvoiceItemRow :=
              { id := s1.nextId, description := line.description,
                quantity := d.qty.getD 0, rate := d.unitPrice.getD 0,
                tax_rate := line_tax_rate d, invoice_id := invoiceId,
                material_id := db_material.id }
            process_invoice_items rem invoiceId rest
              { s1 with
                nextId := s1.nextId + 1
                invoice_items := s1.invoice_items ++ [inv_item] }
    else process_invoice_items rem invoiceId rest s

/-- Loop body of import_script.process_attachments: per attachment, skip on a
falsy filename, failed download (`not file_content` also catches empty
bytes), or failed upload; otherwise persist the attachment row of the kind
matching the owning object type. -/
def attach_loop (rem : Remote) (objType : String) (ownerId : Nat) :
    List QBAttachable → DBState → DBState
  | [], s => s
  | att :: rest, s =>
    if !strTruthy att.fileName then attach_loop rem objType ownerId rest s
    else
      match download_attachment rem att with
      | none => attach_loop rem objType ownerId rest s
      | some content =>
        if content.isEmpty then attach_loop rem objType ownerId rest s
        else
          match upload_attachment_to_azure rem (att.fileName.getD "") content with
          | none => attach_loop rem objType ownerId rest s
          | some url =>
            if objType == "PurchaseOrder" then
              attach_loop rem objType ownerId rest
                { s with
                  nextId := s.nextId + 1
                  lpo_attachments := s.lpo_attachments ++
                    [{ id := s.nextId, blob_url := url,
                       file_name := att.fileName.getD "", lpo_id := ownerId }] }
            else if objType == "Invoice" then
              attach_loop rem objType ownerId rest
                { s with
                  nextId := s.nextId + 1
                  invoice_attachments := s.invoice_attachments ++
                    [{ id := s.nextId, blob_url := url,
                       file_name := att.fileName.getD "", invoice_id := ownerId }] }
            else attach_loop rem objType ownerId rest s

/-- Source: import_script.process_attachments. -/
def process_attachments (rem : Remote) (objType objId : String) (ownerId : Nat)
    (s : DBState) : DBState :=
  attach_loop rem objType ownerId (rem.fetchAttachments objType objId) s

/-! ## The orchestrator (import_script.process_imports) -/

/-- The `TxnTaxDetail.TotalTax if TxnTaxDetail else 0` projection used for both
header constructions. -/
def tax_of : Option QBTaxDetail → ℚ
  | some d => d.totalTax
  | none => 0

/-- The LPO header construction of process_imports step 4b (lines 330-343). -/
def build_lpo_row (newId : Nat) (lpo_number : String) (qb_lpo : QBPurchaseOrder)
    (supplier_id project_id created_by_id : Nat) : LPORow :=
  { id := newId
    lpo_number := lpo_number
    lpo_date := qb_lpo.txnDate
    status := qb_lpo.poStatus
    subtotal := qb_lpo.totalAmt - tax_of qb_lpo.txnTaxDetail
    tax_total := tax_of qb_lpo.txnTaxDetail
    grand_total := qb_lpo.totalAmt
    message_to_supplier := qb_lpo.privateNote
    memo := qb_lpo.memo
    payment_mode := none
    supplier_id := supplier_id
    project_id := project_id
    created_by_id := created_by_id }

/-- The Invoice header construction of process_imports step 5 (lines 362-377);
Supplier/Project/User are inherited from the resolved LPO row. -/
def build_invoice_row (newId : Nat) (invoice_number : String) (inv : QBInvoice)
    (db_lpo : LPORow) : InvoiceRow :=
  { id := newId
    invoice_number := invoice_number
    invoice_date := inv.txnDate
    invoice_due_date := inv.dueDate
    lpo_id := db_lpo.id
    status := if inv.balance == 0 then "Paid" else "Pending"
    subtotal := inv.totalAmt - tax_of inv.txnTaxDetail
    tax_total := tax_of inv.txnTaxDetail
    grand_total := inv.totalAmt
    message_to_customer := inv.customerMemo
    memo := inv.privateNote
    payment_mode := none
    supplier_id := db_lpo.supplier_id
    project_id := db_lpo.project_id
    created_by_id := db_lpo.created_by_id }

/-- Step 4 of process_imports (lines 314-357): find the LPO row by document
number, or resolve its supplier, build the header, assemble its line items
and relocate its attachments.  Errors are the `raise Exception` sites plus
anything raised by the resolvers. -/
def resolve_or_create_lpo (rem : Remote) (projId userId : Nat)
    (qb_lpo : QBPurchaseOrder) (lpo_number : String) (s : DBState) :
    Except String (LPORow × DBState) :=
  match s.lpos.find? (fun r => r.lpo_number == lpo_number) with
  | some db_lpo => .ok (db_lpo, s)
  | none =>
    if !strTruthy qb_lpo.vendorRef then
      .error ("LPO " ++ lpo_number ++ " has no Supplier (VendorRef).")
    else
      match rem.fetchSupplier (qb_lpo.vendorRef.getD "") with
      | none =>
        .error ("Supplier ID " ++ qb_lpo.vendorRef.getD "" ++ " not found in QB.")
      | some qb_supplier =>
        match get_or_create_supplier s qb_supplier with
        | .error e => .error e
        | .ok (db_supplier, s1) =>
          let db_lpo := build_lpo_row s1.nextId lpo_number qb_lpo db_supplier.id projId userId
          let s2 := { s1 with nextId := s1.nextId + 1, lpos := s1.lpos ++ [db_lpo] }
          match process_lpo_items rem db_lpo.id qb_lpo.lines s2 with
          | .error e => .error e
          | .ok s3 =>
            .ok (db_lpo, process_attachments rem "PurchaseOrder" qb_lpo.id db_lpo.id s3)

/-- Result of the body of the per-invoice `try` block: a skip guard fired, an
exception was raised (to be rolled back), or a new pending state is ready to
commit. -/
inductive StepResult where
  | skipped
  | failed (msg : String)
  | toCommit (s : DBState)
deriving DecidableEq

/-- Steps 2-7 of process_imports for one invoice whose document number is
already known to be truthy: duplicate check, linked-LPO lookup, LPO
resolution/creation, invoice construction, line items and attachments. -/
def process_one (rem : Remote) (projId userId : Nat) (s : DBState)
    (inv : QBInvoice) (invoice_number : String) : StepResult :=
  if (s.invoices.find? (fun r => r.invoice_number == invoice_number)).isSome then
    .skipped
  else
    match get_lpo_for_invoice rem inv with
    | none => .skipped
    | some qb_lpo =>
      if !strTruthy qb_lpo.docNumber then .skipped
      else
        match resolve_or_create_lpo rem projId userId qb_lpo (qb_lpo.docNumber.getD "") s with
        | .error e => .failed e
        | .ok (db_lpo, s5) =>
          let db_invoice := build_invoice_row s5.nextId invoice_number inv db_lpo
          let s6 := { s5 with
                      nextId := s5.nextId + 1
                      invoices := s5.invoices ++ [db_invoice] }
          match process_invoice_items rem db_invoice.id inv.lines s6 with
          | .error e => .failed e
          | .ok s7 => .toCommit (process_attachments rem "Invoice" inv.id db_invoice.id s7)

/-- Terminal outcome recorded for one invoice of a run. -/
inductive Outcome where
  | succeeded
  | skipped
  | failed (msg : String)
deriving DecidableEq

/-- State of a run: the committed store, the pending (session) store, the
three counters and the per-invoice outcome trail. -/
structure RunState where
  committed : DBState
  pending : DBState
  success_count : Nat
  skipped_count : Nat
  fail_count : Nat
  outcomes : List Outcome
deriving DecidableEq

/-- One iteration of the invoice loop of process_imports: the untruthy
document-number skip happens outside the `try`; otherwise the `try` body
runs on the session state, a raised exception rolls the session back to the
committed state, and success commits the session. -/
def step_invoice (rem : Remote) (projId userId : Nat) (rs : RunState)
    (inv : QBInvoice) : RunState :=
  if !strTruthy inv.docNumber then
    { rs with
      skipped_count := rs.skipped_count + 1
      outcomes := rs.outcomes ++ [Outcome.skipped] }
  else
    match process_one rem projId userId rs.pending inv (inv.docNumber.getD "") with
    | .skipped =>
      { rs with
        skipped_count := rs.skipped_count + 1
        outcomes := rs.outcomes ++ [Outcome.skipped] }
    | .failed e =>
      { rs with
        pending := rs.committed
        fail_count := rs.fail_count + 1
        outcomes := rs.outcomes ++ [Outcome.failed e] }
    | .toCommit s =>
      { rs with
        committed := s
        pending := s
        success_count := rs.success_count + 1
        outcomes := rs.outcomes ++ [Outcome.succeeded] }

/-- The invoice loop of process_imports. -/
def run_loop (rem : Remote) (projId userId : Nat) (rs : RunState) :
    List QBInvoice → RunState
  | [] => rs
  | inv :: rest => run_loop rem projId userId (step_invoice rem projId userId rs inv) rest

/-- Resolution of the default project and user performed before the loop. -/
def ensure_defaults (s : DBState) : Nat × Nat × DBState :=
  let pr := get_default_project s
  let us := get_default_user pr.2
  (pr.1.id, us.1.id, us.2)

/-- Report of a whole run: credential failure, connection failure, or the
final counters with the outcome trail. -/
inductive RunReport where
  | config_error
  | connect_error
  | finished (success_count skipped_count fail_count : Nat) (outcomes : List Outcome)
deriving DecidableEq

/-- Number of failures a run report carries. -/
def RunReport.failures : RunReport → Nat
  | .finished _ _ f _ => f
  | _ => 0

/-- Source: import_script.process_imports.  `clientOk` models whether the
QuickBooks client initialisation succeeded.  The returned store is the
committed state when the session closes (the initial store when the run
aborts up front). -/
def process_imports (cfg : Config) (clientOk : Bool) (rem : Remote)
    (limit : Option Nat) (init : DBState) : RunReport × DBState :=
  if !all_qb_keys_present cfg then (.config_error, init)
  else if !clientOk then (.connect_error, init)
  else
    let dflt := ensure_defaults init
    let rs0 : RunState :=
      { committed := init, pending := dflt.2.2, success_count := 0,
        skipped_count := 0, fail_count := 0, outcomes := [] }
    let rsF := run_loop rem dflt.1 dflt.2.1 rs0 (get_invoices rem limit)
    (.finished rsF.success_count rsF.skipped_count rsF.fail_count rsF.outcomes,
      rsF.committed)

/-- The skip guards of one loop iteration that fire before any row is staged:
untruthy invoice document number, duplicate document number, no linked
purchase order resolvable, or a linked order without document number.  The
duplicate guard only consults the invoice table, passed as `invs`. -/
def will_skip (rem : Remote) (invs : List InvoiceRow) (inv : QBInvoice) : Bool :=
  if !strTruthy inv.docNumber then true
  else if (invs.find? (fun r => r.invoice_number == inv.docNumber.getD "")).isSome then true
  else
    match get_lpo_for_invoice rem inv with
    | none => true
    | some qb_lpo => !strTruthy qb_lpo.docNumber

/-! ## Concrete sample worlds used to instantiate the theorems -/

/-- The empty local store. -/
def dbEmpty : DBState :=
  { nextId := 0, suppliers := [], materials := [], projects := [], users := [],
    lpos := [], lpo_items := [], lpo_attachments := [], invoices := [],
    invoice_items := [], invoice_attachments := [] }

/-- A configuration with all five QuickBooks credentials present. -/
def cfgFull : Config :=
  { qb_client_id := some "id", qb_client_secret := some "sec",
    qb_access_token := some "at", qb_refresh_token := some "rt",
    qb_realm_id := some "realm" }

/-- A configuration whose access token is missing. -/
def cfgNoToken : Config :=
  { qb_client_id := some "id", qb_client_secret := some "sec",
    qb_access_token := none, qb_refresh_token := some "rt",
    qb_realm_id := some "realm" }

/-- A remote purchase order: total 105.00, reported tax 5.00, vendor V1. -/
def lpoSample : QBPurchaseOrder :=
  { id := "QL1", docNumber := some "PO1", txnDate := 0, poStatus := "Open",
    totalAmt := 105, txnTaxDetail := some { totalTax := 5 }, privateNote := none,
    memo := none, vendorRef := some "V1", lines := [] }

/-- A remote invoice linked to `lpoSample`, fully paid. -/
def invSample : QBInvoice :=
  { id := "QI1", docNumber := some "I1", txnDate := 0, dueDate := 0, balance := 0,
    totalAmt := 105, txnTaxDetail := some { totalTax := 5 }, customerMemo := none,
    privateNote := none,
    linkedTxn := [{ txnType := "PurchaseOrder", txnId := "L1" }], lines := [] }

/-- A healthy remote world holding `invSample` and its linked order. -/
def remSample : Remote :=
  { invoices := [invSample]
    fetchLpo := fun i => if i == "L1" then some lpoSample else none
    fetchSupplier := fun i =>
      if i == "V1" then
        some { id := "V1", displayName := some "Acme", email := none, phone := none }
      else none
    fetchItem := fun _ => none
    fetchAttachments := fun _ _ => []
    httpGet := fun _ => none
    blobClient := none }

/-- A remote purchase order carrying no vendor reference: resolving it raises
`LPO PO9 has no Supplier (VendorRef).`. -/
def lpoNoVendor : QBPurchaseOrder :=
  { id := "QL9", docNumber := some "PO9", txnDate := 0, poStatus := "Open",
    totalAmt := 50, txnTaxDetail := none, privateNote := none,
    memo := none, vendorRef := none, lines := [] }

/-- A remote invoice linked to `lpoNoVendor`. -/
def invNoVendor : QBInvoice :=
  { id := "QI9", docNumber := some "I9", txnDate := 0, dueDate := 0, balance := 1,
    totalAmt := 50, txnTaxDetail := none, customerMemo := none, privateNote := none,
    linkedTxn := [{ txnType := "PurchaseOrder", txnId := "L9" }], lines := [] }

/-- A remote world on which every run fails `invNoVendor` deterministically. -/
def remNoVendor : Remote :=
  { invoices := [invNoVendor]
    fetchLpo := fun i => if i == "L9" then some lpoNoVendor else none
    fetchSupplier := fun _ => none
    fetchItem := fun _ => none
    fetchAttachments := fun _ _ => []
    httpGet := fun _ => none
    blobClient := none }

/-- A remote invoice whose only linked transactions are a non-order entry
followed by an order entry whose fetch fails, followed by an order entry
whose fetch would succeed. -/
def invBrokenLink : QBInvoice :=
  { id := "QI5", docNumber := some "I5", txnDate := 0, dueDate := 0, balance := 0,
    totalAmt := 10, txnTaxDetail := none, customerMemo := none, privateNote := none,
    linkedTxn := [{ txnType := "Payment", txnId := "P1" },
                  { txnType := "PurchaseOrder", txnId := "BAD" },
                  { txnType := "PurchaseOrder", txnId := "L1" }],
    lines := [] }

/-- A remote world where fetching order `BAD` raises while order `L1` is
available. -/
def remBrokenLink : Remote :=
  { invoices := [invBrokenLink]
    fetchLpo := fun i => if i == "L1" then some lpoSample else none
    fetchSupplier := fun _ => none
    fetchItem := fun _ => none
    fetchAttachments := fun _ _ => []
    httpGet := fun _ => none
    blobClient := none }

/-- The LPO row created for `lpoSample` during the sample import. -/
def lpoRowSample : LPORow :=
  { id := 3, lpo_number := "PO1", lpo_date := 0, status := "Open",
    subtotal := 105 - 5, tax_total := 5, grand_total := 105,
    message_to_supplier := none, memo := none, payment_mode := none,
    supplier_id := 2, project_id := 0, created_by_id := 1 }

/-- The Invoice row created for `invSample` during the sample import. -/
def invoiceRowSample : InvoiceRow :=
  { id := 4, invoice_number := "I1", invoice_date := 0,
    invoice_due_date := 0, lpo_id := 3, status := "Paid",
    subtotal := 105 - 5, tax_total := 5, grand_total := 105,
    message_to_customer := none, memo := none, payment_mode := none,
    supplier_id := 2, project_id := 0, created_by_id := 1 }

/-- The committed store left behind by importing `remSample` into `dbEmpty`:
default project and user, the Acme supplier, order PO1 and invoice I1. -/
def dbAfterSample : DBState :=
  { nextId := 5
    suppliers := [{ id := 2, name := "Acme", email := none, phone := none }]
    materials := []
    projects := [{ id := 0, name := "Default Imported Project" }]
    users := [{ id := 1, email := "import_admin@yourcompany.com",
                hashed_password := "!!!SET-A-DUMMY-PASSWORD-HERE!!!" }]
    lpos := [lpoRowSample]
    lpo_items := []
    lpo_attachments := []
    invoices := [invoiceRowSample]
    invoice_items := []
    invoice_attachments := [] }

/-- The local store holding only the default project and the default user. -/
def dbDefaults : DBState :=
  { dbEmpty with
    nextId := 2
    projects := [{ id := 0, name := "Default Imported Project" }]
    users := [{ id := 1, email := "import_admin@yourcompany.com",
                hashed_password := "!!!SET-A-DUMMY-PASSWORD-HERE!!!" }] }

/-- A run state over the empty store. -/
def rsEmpty : RunState :=
  { committed := dbEmpty, pending := dbEmpty, success_count := 0,
    skipped_count := 0, fail_count := 0, outcomes := [] }

/-- A remote invoice with a document number whose linked-transaction list
holds no "PurchaseOrder" entry. -/
def invOnlyPayment : QBInvoice :=
  { id := "QI7", docNumber := some "I7", txnDate := 0, dueDate := 0, balance := 0,
    totalAmt := 10, txnTaxDetail := none, customerMemo := none, privateNote := none,
    linkedTxn := [{ txnType := "Payment", txnId := "P1" }], lines := [] }

/-- A remote item of type Service. -/
def itemService : QBItem := { id := "IT1", name := some "Steel", itemType := "Service" }

/-- A remote item with the same name as `itemService` but type Inventory. -/
def itemInventory : QBItem := { id := "IT2", name := some "Steel", itemType := "Inventory" }

/-- The store after resolving `itemService` against the empty store. -/
def dbSteel : DBState :=
  { dbEmpty with nextId := 1, materials := [{ id := 0, name := "Steel", unit := "service" }] }

/-- A remote vendor without a display name. -/
def vendorNoName : QBVendor := { id := "V0", displayName := none, email := none, phone := none }

/-- A remote vendor displaying "Acme". -/
def vendorAcme : QBVendor := { id := "V1", displayName := some "Acme", email := none, phone := none }

/-- Another remote vendor displaying "Acme" with different contact details. -/
def vendorAcme2 : QBVendor :=
  { id := "V2", displayName := some "Acme", email := some "x@acme.example", phone := none }

/-- The supplier row created for "Acme" in the empty store. -/
def acmeRow : SupplierRow := { id := 0, name := "Acme", email := none, phone := none }

/-- The store after resolving `vendorAcme` against the empty store. -/
def dbAcme : DBState := { dbEmpty with nextId := 1, suppliers := [acmeRow] }

/-- A run state whose committed and pending stores both hold the result of
the sample import. -/
def rsAfterSample : RunState :=
  { committed := dbAfterSample, pending := dbAfterSample, success_count := 0,
    skipped_count := 0, fail_count := 0, outcomes := [] }

/-- An item-based line detail carrying tax code "NON". -/
def detNON : QBItemLineDetail :=
  { itemRef := some "ITM", taxCodeRef := some "NON", qty := none, unitPrice := none }

/-- An item-based line detail carrying tax code "TAX". -/
def detTAX : QBItemLineDetail :=
  { itemRef := some "ITM", taxCodeRef := some "TAX", qty := none, unitPrice := none }

/-- A remote item of a type that is neither Service nor Inventory. -/
def itemWidget : QBItem := { id := "ITM", name := some "Widget", itemType := "Other" }

/-- An expense line over `detTAX`. -/
def lineExpTax : QBLine :=
  { detailType := "ItemBasedExpenseLineDetail", description := none, detail := detTAX }

/-- A sales line over `detTAX`. -/
def lineSalesTax : QBLine :=
  { detailType := "SalesItemLineDetail", description := none, detail := detTAX }

/-- A remote world that resolves item "ITM" to `itemWidget`. -/
def remTax : Remote :=
  { invoices := []
    fetchLpo := fun _ => none
    fetchSupplier := fun _ => none
    fetchItem := fun i => if i == "ITM" then some itemWidget else none
    fetchAttachments := fun _ _ => []
    httpGet := fun _ => none
    blobClient := none }

/-- The order line-item row assembled from `lineExpTax` into the empty store. -/
def lpoItemTax : LPOItemRow :=
  { id := 1, description := none, quantity := 0, rate := 0,
    tax_rate := 0.05, lpo_id := 7, material_id := 0 }

/-- The invoice line-item row assembled from `lineSalesTax` into the empty
store. -/
def invItemTax : InvoiceItemRow :=
  { id := 1, description := none, quantity := 0, rate := 0,
    tax_rate := 0.05, invoice_id := 8, material_id := 0 }

/-- The store after assembling `lineExpTax` for order 7 into the empty store. -/
def dbAfterLpoItem : DBState :=
  { dbEmpty with
    nextId := 2
    materials := [{ id := 0, name := "Widget", unit := "nos" }]
    lpo_items := [lpoItemTax] }

/-- The store after assembling `lineSalesTax` for invoice 8 into the empty
store. -/
def dbAfterInvItem : DBState :=
  { dbEmpty with
    nextId := 2
    materials := [{ id := 0, name := "Widget", unit := "nos" }]
    invoice_items := [invItemTax] }

/-! ## Helper lemmas -/

/-- Scanning a linked-transaction list without any "PurchaseOrder" entry
yields no order. -/
theorem lpo_txn_scan_eq_none (rem : Remote) :
    ∀ ts : List QBLinkedTxn, (∀ t ∈ ts, t.txnType ≠ "PurchaseOrder") →
      lpo_txn_scan rem ts = none
  | [], _ => rfl
  | t :: rest, h => by
    have ht : t.txnType ≠ "PurchaseOrder" := h t (List.mem_cons_self t rest)
    have hrest := lpo_txn_scan_eq_none rem rest fun t2 h2 => h t2 (List.mem_cons_of_mem t h2)
    simpa [lpo_txn_scan, ht] using hrest

/-- Scanning stops at the first "PurchaseOrder" entry: the entries after it
are never consulted. -/
theorem lpo_txn_scan_first (rem : Remote) (t : QBLinkedTxn) (post : List QBLinkedTxn)
    (ht : t.txnType = "PurchaseOrder") :
    ∀ pre : List QBLinkedTxn, (∀ t2 ∈ pre, t2.txnType ≠ "PurchaseOrder") →
      lpo_txn_scan rem (pre ++ t :: post) = rem.fetchLpo t.txnId
  | [], _ => by simp [lpo_txn_scan, ht]
  | t2 :: pre, h => by
    have ht2 : t2.txnType ≠ "PurchaseOrder" := h t2 (List.mem_cons_self t2 pre)
    have hpre := lpo_txn_scan_first rem t post ht pre fun t3 h3 => h t3 (List.mem_cons_of_mem t2 h3)
    simpa [lpo_txn_scan, ht2] using hpre

/-- An invoice with no resolvable linked order is skipped by the per-invoice
step, whatever the store contents. -/
theorem process_one_skip_of_no_lpo (rem : Remote) (projId userId : Nat) (s : DBState)
    (inv : QBInvoice) (num : String)
    (h : get_lpo_for_invoice rem inv = none) :
    process_one rem projId userId s inv num = StepResult.skipped := by
  unfold process_one
  split
  · rfl
  · rw [h]

/-- A per-invoice step whose try body skipped only bumps the skip counter. -/
theorem step_invoice_of_skipped (rem : Remote) (projId userId : Nat) (rs : RunState)
    (inv : QBInvoice)
    (hp : process_one rem projId userId rs.pending inv (inv.docNumber.getD "")
        = StepResult.skipped) :
    step_invoice rem projId userId rs inv =
      { rs with
        skipped_count := rs.skipped_count + 1
        outcomes := rs.outcomes ++ [Outcome.skipped] } := by
  unfold step_invoice
  split
  · rfl
  · rw [hp]

/-! ## C3: header tax derivation -/

/-- C3: every purchase-order and invoice header built by the pipeline has
subtotal = grand total − tax total, where the grand total is the
remote-reported total and the tax total is the remote-reported tax or zero
when absent; concretely a remote total of 105.00 with reported tax 5.00
yields subtotal exactly 100.00 and tax_total exactly 5.00 in exact rational
arithmetic. -/
theorem header_tax_derivation :
    (∀ (n : Nat) (num : String) (qb_lpo : QBPurchaseOrder) (sid pid uid : Nat),
        (build_lpo_row n num qb_lpo sid pid uid).subtotal
            = (build_lpo_row n num qb_lpo sid pid uid).grand_total
              - (build_lpo_row n num qb_lpo sid pid uid).tax_total
      ∧ (build_lpo_row n num qb_lpo sid pid uid).grand_total = qb_lpo.totalAmt
      ∧ (build_lpo_row n num qb_lpo sid pid uid).tax_total = tax_of qb_lpo.txnTaxDetail)
  ∧ (∀ (n : Nat) (num : String) (inv : QBInvoice) (db_lpo : LPORow),
        (build_invoice_row n num inv db_lpo).subtotal
            = (build_invoice_row n num inv db_lpo).grand_total
              - (build_invoice_row n num inv db_lpo).tax_total
      ∧ (build_invoice_row n num inv db_lpo).grand_total = inv.totalAmt
      ∧ (build_invoice_row n num inv db_lpo).tax_total = tax_of inv.txnTaxDetail)
  ∧ (∀ d : QBTaxDetail, tax_of (some d) = d.totalTax)
  ∧ tax_of none = 0
  ∧ (build_lpo_row 3 "PO1" lpoSample 2 0 1).subtotal = 100
  ∧ (build_lpo_row 3 "PO1" lpoSample 2 0 1).tax_total = 5
  ∧ (build_invoice_row 4 "I1" invSample (build_lpo_row 3 "PO1" lpoSample 2 0 1)).subtotal = 100
  ∧ (build_invoice_row 4 "I1" invSample (build_lpo_row 3 "PO1" lpoSample 2 0 1)).tax_total = 5 := by
  refine ⟨fun n num qb_lpo sid pid uid => ⟨rfl, rfl, rfl⟩,
    fun n num inv db_lpo => ⟨rfl, rfl, rfl⟩, fun d => rfl, rfl, ?_, ?_, ?_, ?_⟩ <;>
    norm_num [build_lpo_row, build_invoice_row, lpoSample, invSample, tax_of]

/-! ## C5: no linked purchase order means Skipped -/

/-- C5: an invoice carrying a document number whose linked-transaction list
holds no "PurchaseOrder" entry is recorded as Skipped — never as Failed —
and the store (committed and pending alike) is left untouched, so no
Invoice row nor any other row is persisted for it. -/
theorem no_linked_order_skipped (rem : Remote) (projId userId : Nat) (rs : RunState)
    (inv : QBInvoice)
    (_hd : strTruthy inv.docNumber = true)
    (hnl : ∀ t ∈ inv.linkedTxn, t.txnType ≠ "PurchaseOrder") :
    step_invoice rem projId userId rs inv =
      { rs with
        skipped_count := rs.skipped_count + 1
        outcomes := rs.outcomes ++ [Outcome.skipped] } := by
  have hscan : get_lpo_for_invoice rem inv = none := lpo_txn_scan_eq_none rem _ hnl
  exact step_invoice_of_skipped rem projId userId rs inv
    (process_one_skip_of_no_lpo rem projId userId rs.pending inv _ hscan)

/-- Witness for C5: a concrete invoice linked only to a Payment entry. -/
theorem no_linked_order_skipped_witness :
    step_invoice remSample 0 1 rsEmpty invOnlyPayment =
      { rsEmpty with
        skipped_count := rsEmpty.skipped_count + 1
        outcomes := rsEmpty.outcomes ++ [Outcome.skipped] } :=
  no_linked_order_skipped remSample 0 1 rsEmpty invOnlyPayment (by decide) (by decide)

/-! ## C8: missing credentials abort the run up front -/

/-- C8: when any required QuickBooks credential is absent the run reports a
configuration error and returns the store unchanged; the conclusion holds
for every remote world, client state and limit, so no collaborator is
consulted and no partial work exists. -/
theorem missing_credentials_abort (cfg : Config)
    (h : all_qb_keys_present cfg = false) :
    ∀ (clientOk : Bool) (rem : Remote) (limit : Option Nat) (init : DBState),
      process_imports cfg clientOk rem limit init = (RunReport.config_error, init) := by
  intro clientOk rem limit init
  unfold process_imports
  simp [h]

/-- Witness for C8: the configuration lacking its access token aborts on the
healthy sample world. -/
theorem missing_credentials_abort_witness :
    process_imports cfgNoToken true remSample none dbEmpty
      = (RunReport.config_error, dbEmpty) :=
  missing_credentials_abort cfgNoToken (by decide) true remSample none dbEmpty

/-! ## C6: supplier resolution -/

/-- C6: supplier resolution returns the existing Supplier row matching the
vendor's display name, creating nothing; otherwise it creates the row with
the next generated identifier, immediately available (flush); it errors on
an empty display name; and a second resolution for the same display name
returns the very same row with the store unchanged, so two orders naming
the same vendor reference exactly one Supplier row. -/
theorem supplier_resolution_spec (s : DBState) (v v2 : QBVendor) :
    (strTruthy v.displayName = false →
        get_or_create_supplier s v =
          Except.error ("QB Supplier ID " ++ v.id ++ " has no DisplayName."))
  ∧ (∀ r, strTruthy v.displayName = true →
        s.suppliers.find? (fun q => q.name == v.displayName.getD "") = some r →
        get_or_create_supplier s v = Except.ok (r, s))
  ∧ (strTruthy v.displayName = true →
        s.suppliers.find? (fun q => q.name == v.displayName.getD "") = none →
        get_or_create_supplier s v =
          Except.ok
            ({ id := s.nextId, name := v.displayName.getD "",
               email := v.email, phone := v.phone },
             { s with
               nextId := s.nextId + 1
               suppliers := s.suppliers ++
                 [{ id := s.nextId, name := v.displayName.getD "",
                    email := v.email, phone := v.phone }] }))
  ∧ (∀ r s1, get_or_create_supplier s v = Except.ok (r, s1) →
        v2.displayName = v.displayName →
        get_or_create_supplier s1 v2 = Except.ok (r, s1)) := by
  refine ⟨?_, ?_, ?_, ?_⟩
  · intro h
    unfold get_or_create_supplier
    simp [h]
  · intro r ht hf
    unfold get_or_create_supplier
    simp [ht, hf]
  · intro ht hf
    unfold get_or_create_supplier
    simp [ht, hf]
  · intro r s1 h hv2
    by_cases ht : strTruthy v.displayName
    · unfold get_or_create_supplier at h
      simp only [ht, Bool.not_true, Bool.false_eq_true, if_false] at h
      cases hf : s.suppliers.find? (fun q => q.name == v.displayName.getD "") with
      | some r0 =>
        rw [hf] at h
        simp only [Except.ok.injEq, Prod.mk.injEq] at h
        obtain ⟨rfl, rfl⟩ := h
        unfold get_or_create_supplier
        simp [hv2, ht, hf]
      | none =>
        rw [hf] at h
        simp only [Except.ok.injEq, Prod.mk.injEq] at h
        obtain ⟨rfl, rfl⟩ := h
        unfold get_or_create_supplier
        simp [hv2, ht, hf, List.find?_append]
    · unfold get_or_create_supplier at h
      simp [ht] at h

/-- Witness for C6 at the vendors "Acme", a second "Acme" vendor with
different details, and a vendor without display name. -/
theorem supplier_resolution_spec_witness :
    get_or_create_supplier dbEmpty vendorNoName =
        Except.error ("QB Supplier ID " ++ vendorNoName.id ++ " has no DisplayName.")
  ∧ get_or_create_supplier dbEmpty vendorAcme = Except.ok (acmeRow, dbAcme)
  ∧ get_or_create_supplier dbAcme vendorAcme2 = Except.ok (acmeRow, dbAcme) :=
  ⟨(supplier_resolution_spec dbEmpty vendorNoName vendorNoName).1 (by decide),
   (supplier_resolution_spec dbEmpty vendorAcme vendorAcme).2.2.1 (by decide) (by decide),
   (supplier_resolution_spec dbEmpty vendorAcme vendorAcme2).2.2.2 acmeRow dbAcme
     ((supplier_resolution_spec dbEmpty vendorAcme vendorAcme).2.2.1 (by decide) (by decide))
     (by decide)⟩

/-! ## C7: material resolution -/

/-- C7: the unit of a newly created Material row is a pure function of the
remote item type (Service → "service", Inventory → "each", default "nos"),
and once a Material row exists for a name, any later resolution call for an
item with that name — whatever its current remote type — returns that row
with the store unchanged, so the unit is never refreshed. -/
theorem material_resolution_spec (s : DBState) (it it2 : QBItem) :
    (∀ m s1, strTruthy it.name = true →
        s.materials.find? (fun q => q.name == it.name.getD "") = none →
        get_or_create_material s it = Except.ok (m, s1) →
        m.unit = (if it.itemType == "Service" then "service"
                  else if it.itemType == "Inventory" then "each" else "nos"))
  ∧ (∀ m s1, get_or_create_material s it = Except.ok (m, s1) →
        it2.name = it.name →
        get_or_create_material s1 it2 = Except.ok (m, s1)) := by
  constructor
  · intro m s1 ht hf h
    unfold get_or_create_material at h
    simp only [ht, Bool.not_true, Bool.false_eq_true, if_false] at h
    rw [hf] at h
    simp only [Except.ok.injEq, Prod.mk.injEq] at h
    obtain ⟨h1, h2⟩ := h
    rw [← h1]
  · intro m s1 h hname
    by_cases ht : strTruthy it.name
    · unfold get_or_create_material at h
      simp only [ht, Bool.not_true, Bool.false_eq_true, if_false] at h
      cases hf : s.materials.find? (fun q => q.name == it.name.getD "") with
      | some m0 =>
        rw [hf] at h
        simp only [Except.ok.injEq, Prod.mk.injEq] at h
        obtain ⟨rfl, rfl⟩ := h
        unfold get_or_create_material
        simp [hname, ht, hf]
      | none =>
        rw [hf] at h
        simp only [Except.ok.injEq, Prod.mk.injEq] at h
        obtain ⟨rfl, rfl⟩ := h
        unfold get_or_create_material
        simp [hname, ht, hf, List.find?_append]
    · unfold get_or_create_material at h
      simp [ht] at h

/-- Witness for C7: creating "Steel" from a Service item yields unit
"service", and a later call with an Inventory-typed item of the same name
returns the same row unchanged. -/
theorem material_resolution_spec_witness :
    ({ id := 0, name := "Steel", unit := "service" } : MaterialRow).unit =
      (if itemService.itemType == "Service" then "service"
       else if itemService.itemType == "Inventory" then "each" else "nos")
  ∧ get_or_create_material dbSteel itemInventory =
      Except.ok ({ id := 0, name := "Steel", unit := "service" }, dbSteel) :=
  ⟨(material_resolution_spec dbEmpty itemService itemService).1
      { id := 0, name := "Steel", unit := "service" } dbSteel
      (by decide) (by decide) (by decide),
   (material_resolution_spec dbEmpty itemService itemInventory).2
      { id := 0, name := "Steel", unit := "service" } dbSteel
      (by decide) (by decide)⟩

/-! ## C2: per-invoice failure isolation -/

/-- C2: when the try body for one invoice raises (resolver failure, header,
line-item or attachment persistence), the session is rolled back to the
committed state — no staged row for the invoice or its newly staged order
survives, and rows committed for earlier invoices are exactly preserved —
the invoice is counted as Failed with the causing message, and the loop
continues with the next invoice instead of aborting the run. -/
theorem failed_invoice_isolated (rem : Remote) (projId userId : Nat) (rs : RunState)
    (inv : QBInvoice) (rest : List QBInvoice) (e : String)
    (hd : strTruthy inv.docNumber = true)
    (hf : process_one rem projId userId rs.pending inv (inv.docNumber.getD "")
        = StepResult.failed e) :
    step_invoice rem projId userId rs inv =
      { rs with
        pending := rs.committed
        fail_count := rs.fail_count + 1
        outcomes := rs.outcomes ++ [Outcome.failed e] }
    ∧ run_loop rem projId userId rs (inv :: rest) =
        run_loop rem projId userId
          { rs with
            pending := rs.committed
            fail_count := rs.fail_count + 1
            outcomes := rs.outcomes ++ [Outcome.failed e] } rest := by
  have h1 : step_invoice rem projId userId rs inv =
      { rs with
        pending := rs.committed
        fail_count := rs.fail_count + 1
        outcomes := rs.outcomes ++ [Outcome.failed e] } := by
    unfold step_invoice
    simp [hd, hf]
  refine ⟨h1, ?_⟩
  show run_loop rem projId userId (step_invoice rem projId userId rs inv) rest = _
  rw [h1]

/-- Witness for C2: the vendorless-order invoice fails, rolls the session
back to the committed empty store, and the loop proceeds to the sample
invoice. -/
theorem failed_invoice_isolated_witness :
    step_invoice remNoVendor 0 1 rsEmpty invNoVendor =
      { rsEmpty with
        pending := rsEmpty.committed
        fail_count := rsEmpty.fail_count + 1
        outcomes := rsEmpty.outcomes ++ [Outcome.failed "LPO PO9 has no Supplier (VendorRef)."] }
    ∧ run_loop remNoVendor 0 1 rsEmpty (invNoVendor :: [invSample]) =
        run_loop remNoVendor 0 1
          { rsEmpty with
            pending := rsEmpty.committed
            fail_count := rsEmpty.fail_count + 1
            outcomes := rsEmpty.outcomes ++ [Outcome.failed "LPO PO9 has no Supplier (VendorRef)."] }
          [invSample] :=
  failed_invoice_isolated remNoVendor 0 1 rsEmpty invNoVendor [invSample]
    "LPO PO9 has no Supplier (VendorRef)." (by decide) rfl

/-! ## C10: failed fetch of a linked order skips the invoice -/

/-- C10: when the linked-transaction list does contain a "PurchaseOrder"
entry but fetching that order from the remote source raises, the linked
lookup returns nothing without consulting any later entry (the conclusion
holds for every `post`), and the orchestrator records the invoice as
Skipped with the store untouched — the same outcome as having no linked
order. -/
theorem broken_linked_order_skipped (rem : Remote) (projId userId : Nat) (rs : RunState)
    (inv : QBInvoice) (pre post : List QBLinkedTxn) (t : QBLinkedTxn)
    (hsplit : inv.linkedTxn = pre ++ t :: post)
    (hpre : ∀ t2 ∈ pre, t2.txnType ≠ "PurchaseOrder")
    (ht : t.txnType = "PurchaseOrder")
    (hfetch : rem.fetchLpo t.txnId = none) :
    get_lpo_for_invoice rem inv = none
    ∧ step_invoice rem projId userId rs inv =
      { rs with
        skipped_count := rs.skipped_count + 1
        outcomes := rs.outcomes ++ [Outcome.skipped] } := by
  have hg : get_lpo_for_invoice rem inv = none := by
    unfold get_lpo_for_invoice
    rw [hsplit, lpo_txn_scan_first rem t post ht pre hpre, hfetch]
  refine ⟨hg, ?_⟩
  by_cases hd : strTruthy inv.docNumber
  · exact step_invoice_of_skipped rem projId userId rs inv
      (process_one_skip_of_no_lpo rem projId userId rs.pending inv _ hg)
  · unfold step_invoice
    simp [hd]

/-- Witness for C10: the broken "BAD" order link skips the invoice even
though a later linked entry ("L1") would have resolved. -/
theorem broken_linked_order_skipped_witness :
    get_lpo_for_invoice remBrokenLink invBrokenLink = none
    ∧ step_invoice remBrokenLink 0 1 rsEmpty invBrokenLink =
      { rsEmpty with
        skipped_count := rsEmpty.skipped_count + 1
        outcomes := rsEmpty.outcomes ++ [Outcome.skipped] } :=
  broken_linked_order_skipped remBrokenLink 0 1 rsEmpty invBrokenLink
    [{ txnType := "Payment", txnId := "P1" }]
    [{ txnType := "PurchaseOrder", txnId := "L1" }]
    { txnType := "PurchaseOrder", txnId := "BAD" }
    rfl (by decide) rfl rfl

/-! ## Frame lemmas: which tables each operation leaves untouched -/

/-- Supplier resolution touches neither the invoice nor the order table. -/
theorem get_or_create_supplier_frame (s : DBState) (v : QBVendor) (r : SupplierRow)
    (s1 : DBState) (h : get_or_create_supplier s v = Except.ok (r, s1)) :
    s1.invoices = s.invoices ∧ s1.lpos = s.lpos := by
  unfold get_or_create_supplier at h
  simp only [] at h
  split at h
  · simp at h
  · split at h <;>
    · simp only [Except.ok.injEq, Prod.mk.injEq] at h
      obtain ⟨h1, h2⟩ := h
      rw [← h2]
      exact ⟨rfl, rfl⟩

/-- Material resolution touches neither the invoice and order tables nor
either line-item table. -/
theorem get_or_create_material_frame (s : DBState) (it : QBItem) (m : MaterialRow)
    (s1 : DBState) (h : get_or_create_material s it = Except.ok (m, s1)) :
    s1.invoices = s.invoices ∧ s1.lpos = s.lpos
      ∧ s1.lpo_items = s.lpo_items ∧ s1.invoice_items = s.invoice_items := by
  unfold get_or_create_material at h
  simp only [] at h
  split at h
  · simp at h
  · split at h <;>
    · simp only [Except.ok.injEq, Prod.mk.injEq] at h
      obtain ⟨h1, h2⟩ := h
      rw [← h2]
      exact ⟨rfl, rfl, rfl, rfl⟩

/-- Order line-item assembly touches neither the invoice nor the order table. -/
theorem process_lpo_items_frame (rem : Remote) (lpoId : Nat) :
    ∀ (ls : List QBLine) (s s2 : DBState),
      process_lpo_items rem lpoId ls s = Except.ok s2 →
      s2.invoices = s.invoices ∧ s2.lpos = s.lpos
  | [], s, s2, h => by
    simp only [process_lpo_items, Except.ok.injEq] at h
    rw [← h]
    exact ⟨rfl, rfl⟩
  | line :: rest, s, s2, h => by
    unfold process_lpo_items at h
    simp only [] at h
    split at h
    · split at h
      · exact process_lpo_items_frame rem lpoId rest s s2 h
      · split at h
        · exact process_lpo_items_frame rem lpoId rest s s2 h
        · rename_i qb_item hfetch
          split at h
          · simp at h
          · rename_i db_material s1 heq
            have hg := get_or_create_material_frame s qb_item db_material s1 heq
            have hrec := process_lpo_items_frame rem lpoId rest _ s2 h
            exact ⟨hrec.1.trans hg.1, hrec.2.trans hg.2.1⟩
    · exact process_lpo_items_frame rem lpoId rest s s2 h

/-- Invoice line-item assembly touches neither the invoice nor the order
table. -/
theorem process_invoice_items_frame (rem : Remote) (invoiceId : Nat) :
    ∀ (ls : List QBLine) (s s2 : DBState),
      process_invoice_items rem invoiceId ls s = Except.ok s2 →
      s2.invoices = s.invoices ∧ s2.lpos = s.lpos
  | [], s, s2, h => by
    simp only [process_invoice_items, Except.ok.injEq] at h
    rw [← h]
    exact ⟨rfl, rfl⟩
  | line :: rest, s, s2, h => by
    unfold process_invoice_items at h
    simp only [] at h
    split at h
    · split at h
      · exact process_invoice_items_frame rem invoiceId rest s s2 h
      · split at h
        · exact process_invoice_items_frame rem invoiceId rest s s2 h
        · rename_i qb_item hfetch
          split at h
          · simp at h
          · rename_i db_material s1 heq
            have hg := get_or_create_material_frame s qb_item db_material s1 heq
            have hrec := process_invoice_items_frame rem invoiceId rest _ s2 h
            exact ⟨hrec.1.trans hg.1, hrec.2.trans hg.2.1⟩
    · exact process_invoice_items_frame rem invoiceId rest s s2 h

/-- Attachment relocation touches neither the invoice nor the order table. -/
theorem attach_loop_frame (rem : Remote) (objType : String) (ownerId : Nat) :
    ∀ (atts : List QBAttachable) (s : DBState),
      (attach_loop rem objType ownerId atts s).invoices = s.invoices
      ∧ (attach_loop rem objType ownerId atts s).lpos = s.lpos
  | [], _ => ⟨rfl, rfl⟩
  | att :: rest, s => by
    unfold attach_loop
    repeat' split
    all_goals exact attach_loop_frame rem objType ownerId rest _

/-- Order resolution leaves the invoice table untouched and yields a row
present in the order table of the resulting store. -/
theorem resolve_or_create_lpo_frame (rem : Remote) (projId userId : Nat)
    (qb_lpo : QBPurchaseOrder) (num : String) (s : DBState) (row : LPORow)
    (s5 : DBState)
    (h : resolve_or_create_lpo rem projId userId qb_lpo num s = Except.ok (row, s5)) :
    s5.invoices = s.invoices ∧ row ∈ s5.lpos := by
  unfold resolve_or_create_lpo at h
  simp only [] at h
  split at h
  · rename_i db_lpo heq
    simp only [Except.ok.injEq, Prod.mk.injEq] at h
    obtain ⟨h1, h2⟩ := h
    rw [← h2]
    exact ⟨rfl, h1 ▸ List.mem_of_find?_eq_some heq⟩
  · split at h
    · simp at h
    · split at h
      · simp at h
      · rename_i qb_supplier hsup
        split at h
        · simp at h
        · rename_i db_supplier s1 heq2
          split at h
          · simp at h
          · rename_i s3 heq3
            simp only [Except.ok.injEq, Prod.mk.injEq] at h
            obtain ⟨h1, h2⟩ := h
            have hgcs := get_or_create_supplier_frame s qb_supplier db_supplier s1 heq2
            have hpli := process_lpo_items_frame rem _ qb_lpo.lines _ s3 heq3
            have hatt := attach_loop_frame rem "PurchaseOrder"
              (build_lpo_row s1.nextId num qb_lpo db_supplier.id projId userId).id
              (rem.fetchAttachments "PurchaseOrder" qb_lpo.id) s3
            constructor
            · rw [← h2]
              exact (hatt.1.trans hpli.1).trans hgcs.1
            · rw [← h2, ← h1]
              show _ ∈ (process_attachments rem "PurchaseOrder" qb_lpo.id _ s3).lpos
              unfold process_attachments
              rw [hatt.2, hpli.2]
              simp

/-- A committed per-invoice step appends exactly one Invoice row — built by
`build_invoice_row` from a row present in the final order table — to the
invoice table. -/
theorem process_one_toCommit (rem : Remote) (projId userId : Nat) (s : DBState)
    (inv : QBInvoice) (num : String) (s2 : DBState)
    (h : process_one rem projId userId s inv num = StepResult.toCommit s2) :
    ∃ n db_lpo, db_lpo ∈ s2.lpos
      ∧ s2.invoices = s.invoices ++ [build_invoice_row n num inv db_lpo] := by
  unfold process_one at h
  simp only [] at h
  split at h
  · simp at h
  · split at h
    · simp at h
    · rename_i qb_lpo hlpo
      split at h
      · simp at h
      · split at h
        · simp at h
        · rename_i db_lpo s5 heq
          split at h
          · simp at h
          · rename_i s7 heq2
            simp only [StepResult.toCommit.injEq] at h
            have hres := resolve_or_create_lpo_frame rem projId userId qb_lpo
              (qb_lpo.docNumber.getD "") s db_lpo s5 heq
            have hpii := process_invoice_items_frame rem
              (build_invoice_row s5.nextId num inv db_lpo).id inv.lines _ s7 heq2
            have hatt := attach_loop_frame rem "Invoice"
              (build_invoice_row s5.nextId num inv db_lpo).id
              (rem.fetchAttachments "Invoice" inv.id) s7
            refine ⟨s5.nextId, db_lpo, ?_, ?_⟩
            · rw [← h]
              show db_lpo ∈ (process_attachments rem "Invoice" inv.id
                (build_invoice_row s5.nextId num inv db_lpo).id s7).lpos
              unfold process_attachments
              rw [hatt.2, hpii.2]
              exact hres.2
            · rw [← h]
              show (process_attachments rem "Invoice" inv.id
                (build_invoice_row s5.nextId num inv db_lpo).id s7).invoices = _
              unfold process_attachments
              rw [hatt.1, hpii.1]
              show s5.invoices ++ [build_invoice_row s5.nextId num inv db_lpo] = _
              rw [hres.1]

/-! ## C9: persisted invoices reference their purchase order -/

/-- C9: every Invoice row a committed step adds references a PurchaseOrder
row present in the resulting store and inherits its Supplier, Project and
User references from that order; and an invoice with no resolvable linked
order is skipped, so it is never persisted. -/
theorem invoice_reference_integrity (rem : Remote) (projId userId : Nat) (s : DBState)
    (inv : QBInvoice) (num : String) (s2 : DBState)
    (h : process_one rem projId userId s inv num = StepResult.toCommit s2) :
    (∀ r ∈ s2.invoices, r ∈ s.invoices ∨
        ∃ db_lpo ∈ s2.lpos,
          r.lpo_id = db_lpo.id ∧ r.supplier_id = db_lpo.supplier_id
          ∧ r.project_id = db_lpo.project_id ∧ r.created_by_id = db_lpo.created_by_id)
    ∧ (∀ (inv2 : QBInvoice) (num2 : String), get_lpo_for_invoice rem inv2 = none →
          process_one rem projId userId s inv2 num2 = StepResult.skipped) := by
  obtain ⟨n, db_lpo, hmem, hinv⟩ := process_one_toCommit rem projId userId s inv num s2 h
  refine ⟨?_, fun inv2 num2 h2 => process_one_skip_of_no_lpo rem projId userId s inv2 num2 h2⟩
  intro r hr
  rw [hinv] at hr
  rcases List.mem_append.mp hr with hl | hr2
  · exact Or.inl hl
  · right
    have hrb : r = build_invoice_row n num inv db_lpo := by simpa using hr2
    exact ⟨db_lpo, hmem, by rw [hrb]; exact ⟨rfl, rfl, rfl, rfl⟩⟩

/-- Witness for C9: the invoice row committed for the sample import inherits
its references from order PO1, and the payment-only invoice is skipped. -/
theorem invoice_reference_integrity_witness :
    (invoiceRowSample ∈ dbDefaults.invoices ∨
      ∃ db_lpo ∈ dbAfterSample.lpos,
        invoiceRowSample.lpo_id = db_lpo.id
        ∧ invoiceRowSample.supplier_id = db_lpo.supplier_id
        ∧ invoiceRowSample.project_id = db_lpo.project_id
        ∧ invoiceRowSample.created_by_id = db_lpo.created_by_id)
    ∧ process_one remSample 0 1 dbDefaults invOnlyPayment "I7" = StepResult.skipped :=
  ⟨(invoice_reference_integrity remSample 0 1 dbDefaults invSample "I1" dbAfterSample rfl).1
      invoiceRowSample (List.mem_cons_self _ _),
   (invoice_reference_integrity remSample 0 1 dbDefaults invSample "I1" dbAfterSample rfl).2
      invOnlyPayment "I7" rfl⟩

/-! ## C4: line tax-rate mapping -/

/-- Every order line-item row the assembler stages carries a tax rate
derived by `line_tax_rate` from one of the processed lines. -/
theorem process_lpo_items_tax (rem : Remote) (lpoId : Nat) :
    ∀ (ls : List QBLine) (s s2 : DBState),
      process_lpo_items rem lpoId ls s = Except.ok s2 →
      ∀ r ∈ s2.lpo_items,
        r ∈ s.lpo_items ∨ ∃ line ∈ ls, r.tax_rate = line_tax_rate line.detail
  | [], s, s2, h => by
    simp only [process_lpo_items, Except.ok.injEq] at h
    rw [← h]
    exact fun r hr => Or.inl hr
  | line0 :: rest, s, s2, h => by
    have weaken : ∀ (s0 : DBState), process_lpo_items rem lpoId rest s0 = Except.ok s2 →
        ∀ r ∈ s2.lpo_items,
          r ∈ s0.lpo_items ∨ ∃ line ∈ line0 :: rest, r.tax_rate = line_tax_rate line.detail := by
      intro s0 h0 r hr
      rcases process_lpo_items_tax rem lpoId rest s0 s2 h0 r hr with hl | ⟨line, hline, htax⟩
      · exact Or.inl hl
      · exact Or.inr ⟨line, List.mem_cons_of_mem _ hline, htax⟩
    unfold process_lpo_items at h
    simp only [] at h
    split at h
    · split at h
      · exact weaken s h
      · split at h
        · exact weaken s h
        · rename_i qb_item hfetch
          split at h
          · simp at h
          · rename_i db_material s1 heq
            have hg := get_or_create_material_frame s qb_item db_material s1 heq
            intro r hr
            rcases process_lpo_items_tax rem lpoId rest _ s2 h r hr with hl | ⟨line, hline, htax⟩
            · rcases List.mem_append.mp hl with hx | hx
              · exact Or.inl (hg.2.2.1 ▸ hx)
              · have hr2 : r =
                    { id := s1.nextId
                      description := line0.description
                      quantity := line0.detail.qty.getD 0
                      rate := line0.detail.unitPrice.getD 0
                      tax_rate := line_tax_rate line0.detail
                      lpo_id := lpoId
                      material_id := db_material.id } := by simpa using hx
                exact Or.inr ⟨line0, List.mem_cons_self _ _, by rw [hr2]⟩
            · exact Or.inr ⟨line, List.mem_cons_of_mem _ hline, htax⟩
    · exact weaken s h

/-- Every invoice line-item row the assembler stages carries a tax rate
derived by `line_tax_rate` from one of the processed lines. -/
theorem process_invoice_items_tax (rem : Remote) (invoiceId : Nat) :
    ∀ (ls : List QBLine) (s s2 : DBState),
      process_invoice_items rem invoiceId ls s = Except.ok s2 →
      ∀ r ∈ s2.invoice_items,
        r ∈ s.invoice_items ∨ ∃ line ∈ ls, r.tax_rate = line_tax_rate line.detail
  | [], s, s2, h => by
    simp only [process_invoice_items, Except.ok.injEq] at h
    rw [← h]
    exact fun r hr => Or.inl hr
  | line0 :: rest, s, s2, h => by
    have weaken : ∀ (s0 : DBState), process_invoice_items rem invoiceId rest s0 = Except.ok s2 →
        ∀ r ∈ s2.invoice_items,
          r ∈ s0.invoice_items ∨ ∃ line ∈ line0 :: rest, r.tax_rate = line_tax_rate line.detail := by
      intro s0 h0 r hr
      rcases process_invoice_items_tax rem invoiceId rest s0 s2 h0 r hr with hl | ⟨line, hline, htax⟩
      · exact Or.inl hl
      · exact Or.inr ⟨line, List.mem_cons_of_mem _ hline, htax⟩
    unfold process_invoice_items at h
    simp only [] at h
    split at h
    · split at h
      · exact weaken s h
      · split at h
        · exact weaken s h
        · rename_i qb_item hfetch
          split at h
          · simp at h
          · rename_i db_material s1 heq
            have hg := get_or_create_material_frame s qb_item db_material s1 heq
            intro r hr
            rcases process_invoice_items_tax rem invoiceId rest _ s2 h r hr with hl | ⟨line, hline, htax⟩
            · rcases List.mem_append.mp hl with hx | hx
              · exact Or.inl (hg.2.2.2 ▸ hx)
              · have hr2 : r =
                    { id := s1.nextId
                      description := line0.description
                      quantity := line0.detail.qty.getD 0
                      rate := line0.detail.unitPrice.getD 0
                      tax_rate := line_tax_rate line0.detail
                      invoice_id := invoiceId
                      material_id := db_material.id } := by simpa using hx
                exact Or.inr ⟨line0, List.mem_cons_self _ _, by rw [hr2]⟩
            · exact Or.inr ⟨line, List.mem_cons_of_mem _ hline, htax⟩
    · exact weaken s h

/-- C4: an item-based line whose tax code is "NON" is assembled with
tax_rate exactly 0.00 and a line with any other tax code with exactly 0.05
(`line_tax_rate` being the derivation written into every line row either
assembler stages, as the last two conjuncts state). -/
theorem line_tax_rate_mapping (d1 d2 : QBItemLineDetail) (c : String)
    (h1 : d1.taxCodeRef = some "NON") (h2 : d2.taxCodeRef = some c)
    (hc : c ≠ "NON") :
    line_tax_rate d1 = 0 ∧ line_tax_rate d2 = (0.05 : ℚ)
    ∧ (∀ (rem : Remote) (lpoId : Nat) (ls : List QBLine) (s s2 : DBState),
        process_lpo_items rem lpoId ls s = Except.ok s2 →
        ∀ r ∈ s2.lpo_items,
          r ∈ s.lpo_items ∨ ∃ line ∈ ls, r.tax_rate = line_tax_rate line.detail)
    ∧ (∀ (rem : Remote) (invoiceId : Nat) (ls : List QBLine) (s s2 : DBState),
        process_invoice_items rem invoiceId ls s = Except.ok s2 →
        ∀ r ∈ s2.invoice_items,
          r ∈ s.invoice_items ∨ ∃ line ∈ ls, r.tax_rate = line_tax_rate line.detail) := by
  refine ⟨?_, ?_, fun rem lpoId => process_lpo_items_tax rem lpoId,
    fun rem invoiceId => process_invoice_items_tax rem invoiceId⟩
  · simp [line_tax_rate, h1]
  · simp [line_tax_rate, h2, hc]

/-- Witness for C4 at concrete tax codes "NON" and "TAX", including the
concrete rows assembled from a "TAX" expense line and a "TAX" sales line. -/
theorem line_tax_rate_mapping_witness :
    line_tax_rate detNON = 0
  ∧ line_tax_rate detTAX = (0.05 : ℚ)
  ∧ (lpoItemTax ∈ dbEmpty.lpo_items ∨
      ∃ line ∈ [lineExpTax], lpoItemTax.tax_rate = line_tax_rate line.detail)
  ∧ (invItemTax ∈ dbEmpty.invoice_items ∨
      ∃ line ∈ [lineSalesTax], invItemTax.tax_rate = line_tax_rate line.detail) := by
  have h := line_tax_rate_mapping detNON detTAX "TAX" rfl rfl (by decide)
  refine ⟨h.1, h.2.1, ?_, ?_⟩
  · exact h.2.2.1 remTax 7 [lineExpTax] dbEmpty dbAfterLpoItem rfl
      lpoItemTax (List.mem_cons_self _ _)
  · exact h.2.2.2 remTax 8 [lineSalesTax] dbEmpty dbAfterInvItem rfl
      invItemTax (List.mem_cons_self _ _)

/-! ## Skip-guard lemmas towards idempotency -/

/-- The `run_loop` equation on a cons cell. -/
theorem run_loop_cons (rem : Remote) (projId userId : Nat) (rs : RunState)
    (inv : QBInvoice) (rest : List QBInvoice) :
    run_loop rem projId userId rs (inv :: rest)
      = run_loop rem projId userId (step_invoice rem projId userId rs inv) rest := rfl

/-- Any true skip guard makes `will_skip` hold. -/
theorem will_skip_intro (rem : Remote) (invs : List InvoiceRow) (inv : QBInvoice)
    (hcase : (invs.find? (fun r => r.invoice_number == inv.docNumber.getD "")).isSome = true
      ∨ get_lpo_for_invoice rem inv = none
      ∨ ∃ qb_lpo, get_lpo_for_invoice rem inv = some qb_lpo
          ∧ strTruthy qb_lpo.docNumber = false) :
    will_skip rem invs inv = true := by
  unfold will_skip
  split
  · rfl
  · rcases hcase with hdup | hlpo | ⟨qb_lpo, hlpo, hdn⟩
    · simp [hdup]
    · split
      · rfl
      · rw [hlpo]
    · split
      · rfl
      · rw [hlpo]
        simp [hdn]

/-- A skipped try body means one of the three in-try skip guards fired. -/
theorem process_one_skipped_cases (rem : Remote) (projId userId : Nat) (s : DBState)
    (inv : QBInvoice) (num : String)
    (h : process_one rem projId userId s inv num = StepResult.skipped) :
    (s.invoices.find? (fun r => r.invoice_number == num)).isSome = true
    ∨ get_lpo_for_invoice rem inv = none
    ∨ ∃ qb_lpo, get_lpo_for_invoice rem inv = some qb_lpo
        ∧ strTruthy qb_lpo.docNumber = false := by
  unfold process_one at h
  simp only [] at h
  split at h
  · rename_i hdup
    exact Or.inl hdup
  · split at h
    · rename_i hlpo
      exact Or.inr (Or.inl hlpo)
    · rename_i qb_lpo hlpo
      split at h
      · rename_i hdn
        refine Or.inr (Or.inr ⟨qb_lpo, hlpo, ?_⟩)
        simpa using hdn
      · split at h
        · simp at h
        · split at h
          · simp at h
          · simp at h

/-- With a truthy document number, a true skip guard makes the try body
skip. -/
theorem process_one_skipped_of_will_skip (rem : Remote) (projId userId : Nat)
    (s : DBState) (inv : QBInvoice)
    (hd : strTruthy inv.docNumber = true)
    (hw : will_skip rem s.invoices inv = true) :
    process_one rem projId userId s inv (inv.docNumber.getD "") = StepResult.skipped := by
  unfold will_skip at hw
  simp only [hd, Bool.not_true, Bool.false_eq_true, if_false] at hw
  unfold process_one
  split
  · rfl
  · rename_i hdup
    rw [Bool.not_eq_true] at hdup
    simp only [hdup, Bool.false_eq_true, if_false] at hw
    split
    · rfl
    · rename_i qb_lpo hlpo
      rw [hlpo] at hw
      have hw2 : (!strTruthy qb_lpo.docNumber) = true := hw
      simp [hw2]

/-- A loop iteration whose skip guard holds only bumps the skip counter. -/
theorem step_invoice_of_will_skip (rem : Remote) (projId userId : Nat) (rs : RunState)
    (inv : QBInvoice)
    (hw : will_skip rem rs.pending.invoices inv = true) :
    step_invoice rem projId userId rs inv =
      { rs with
        skipped_count := rs.skipped_count + 1
        outcomes := rs.outcomes ++ [Outcome.skipped] } := by
  by_cases hd : strTruthy inv.docNumber
  · exact step_invoice_of_skipped rem projId userId rs inv
      (process_one_skipped_of_will_skip rem projId userId rs.pending inv hd hw)
  · unfold step_invoice
    simp [hd]

/-- The skip guards are monotone in the invoice table: once they hold they
keep holding as rows are added. -/
theorem will_skip_mono (rem : Remote) (invs invs2 : List InvoiceRow) (inv : QBInvoice)
    (hsub : ∀ r ∈ invs, r ∈ invs2)
    (hw : will_skip rem invs inv = true) : will_skip rem invs2 inv = true := by
  unfold will_skip at hw ⊢
  by_cases hd : strTruthy inv.docNumber
  · simp only [hd, Bool.not_true, Bool.false_eq_true, if_false] at hw ⊢
    by_cases hdup :
        (invs.find? (fun r => r.invoice_number == inv.docNumber.getD "")).isSome = true
    · obtain ⟨x, hx, hpx⟩ := List.find?_isSome.mp hdup
      have hdup2 :
          (invs2.find? (fun r => r.invoice_number == inv.docNumber.getD "")).isSome :=
        List.find?_isSome.mpr ⟨x, hsub x hx, hpx⟩
      simp [hdup2]
    · rw [Bool.not_eq_true] at hdup
      simp only [hdup, Bool.false_eq_true, if_false] at hw
      split
      · rfl
      · exact hw
  · simp [hd]

/-- Master invariant of one loop iteration: the session and committed
invoice tables agree again afterwards, committed rows are never lost, the
failure counter never decreases, and an iteration that did not fail leaves
its invoice's skip guard true on the committed table. -/
theorem step_invoice_master (rem : Remote) (projId userId : Nat) (rs : RunState)
    (inv : QBInvoice)
    (ht : rs.pending.invoices = rs.committed.invoices) :
    ((step_invoice rem projId userId rs inv).pending.invoices
        = (step_invoice rem projId userId rs inv).committed.invoices)
    ∧ (∀ r ∈ rs.committed.invoices,
        r ∈ (step_invoice rem projId userId rs inv).committed.invoices)
    ∧ rs.fail_count ≤ (step_invoice rem projId userId rs inv).fail_count
    ∧ ((step_invoice rem projId userId rs inv).fail_count = rs.fail_count →
        will_skip rem (step_invoice rem projId userId rs inv).committed.invoices inv
          = true) := by
  by_cases hd : strTruthy inv.docNumber
  · cases hp : process_one rem projId userId rs.pending inv (inv.docNumber.getD "") with
    | skipped =>
      have hs := step_invoice_of_skipped rem projId userId rs inv hp
      rw [hs]
      refine ⟨ht, fun r hr => hr, Nat.le_refl _, fun _ => ?_⟩
      show will_skip rem rs.committed.invoices inv = true
      rw [← ht]
      exact will_skip_intro rem rs.pending.invoices inv
        (process_one_skipped_cases rem projId userId rs.pending inv _ hp)
    | failed e =>
      have hs : step_invoice rem projId userId rs inv =
          { rs with
            pending := rs.committed
            fail_count := rs.fail_count + 1
            outcomes := rs.outcomes ++ [Outcome.failed e] } := by
        unfold step_invoice
        simp [hd, hp]
      rw [hs]
      exact ⟨rfl, fun r hr => hr, Nat.le_succ _, fun hc => absurd hc (by simp)⟩
    | toCommit s2 =>
      have hs : step_invoice rem projId userId rs inv =
          { rs with
            committed := s2
            pending := s2
            success_count := rs.success_count + 1
            outcomes := rs.outcomes ++ [Outcome.succeeded] } := by
        unfold step_invoice
        simp [hd, hp]
      obtain ⟨n, db_lpo, hmem, hinv⟩ :=
        process_one_toCommit rem projId userId rs.pending inv _ s2 hp
      rw [hs]
      refine ⟨rfl, ?_, Nat.le_refl _, fun _ => ?_⟩
      · intro r hr
        show r ∈ s2.invoices
        rw [hinv]
        exact List.mem_append_left _ (ht ▸ hr)
      · refine will_skip_intro rem s2.invoices inv (Or.inl ?_)
        refine List.find?_isSome.mpr
          ⟨build_invoice_row n (inv.docNumber.getD "") inv db_lpo, ?_, ?_⟩
        · rw [hinv]
          exact List.mem_append_right _ (List.mem_cons_self _ _)
        · exact beq_self_eq_true (inv.docNumber.getD "")
  · have hs : step_invoice rem projId userId rs inv =
        { rs with
          skipped_count := rs.skipped_count + 1
          outcomes := rs.outcomes ++ [Outcome.skipped] } := by
      unfold step_invoice
      simp [hd]
    rw [hs]
    refine ⟨ht, fun r hr => hr, Nat.le_refl _, fun _ => ?_⟩
    unfold will_skip
    simp [hd]

/-- Master invariant of the whole loop, by induction along the invoice
sequence: tidiness, monotone committed rows, a monotone failure counter,
and — for a failure-free stretch — every processed invoice's skip guard
true on the final committed table. -/
theorem run_loop_invariant (rem : Remote) (projId userId : Nat) :
    ∀ (L : List QBInvoice) (rs : RunState),
      rs.pending.invoices = rs.committed.invoices →
      ((run_loop rem projId userId rs L).pending.invoices
          = (run_loop rem projId userId rs L).committed.invoices)
      ∧ (∀ r ∈ rs.committed.invoices, r ∈ (run_loop rem projId userId rs L).committed.invoices)
      ∧ rs.fail_count ≤ (run_loop rem projId userId rs L).fail_count
      ∧ ((run_loop rem projId userId rs L).fail_count = rs.fail_count →
          ∀ inv ∈ L,
            will_skip rem (run_loop rem projId userId rs L).committed.invoices inv = true)
  | [], rs, ht =>
    ⟨ht, fun r hr => hr, Nat.le_refl _, fun _ inv hinv => absurd hinv (List.not_mem_nil inv)⟩
  | inv0 :: rest, rs, ht => by
    have hstep := step_invoice_master rem projId userId rs inv0 ht
    have hrec := run_loop_invariant rem projId userId rest
      (step_invoice rem projId userId rs inv0) hstep.1
    rw [run_loop_cons]
    refine ⟨hrec.1, fun r hr => hrec.2.1 r (hstep.2.1 r hr),
      hstep.2.2.1.trans hrec.2.2.1, fun hf inv hinv => ?_⟩
    have hle1 := hstep.2.2.1
    have hle2 := hrec.2.2.1
    have hf1 : (step_invoice rem projId userId rs inv0).fail_count = rs.fail_count := by
      omega
    have hf2 : (run_loop rem projId userId (step_invoice rem projId userId rs inv0)
        rest).fail_count = (step_invoice rem projId userId rs inv0).fail_count := by
      omega
    rcases List.mem_cons.mp hinv with rfl | hmem
    · exact will_skip_mono rem _ _ inv hrec.2.1 (hstep.2.2.2 hf1)
    · exact hrec.2.2.2 hf2 inv hmem

/-- A loop over invoices whose skip guards all hold on the session table
only counts skips: the final state carries the same stores, the skip
counter grown by the list length, and one Skipped outcome per invoice. -/
theorem run_loop_all_skip (rem : Remote) (projId userId : Nat) :
    ∀ (L : List QBInvoice) (rs : RunState),
      (∀ inv ∈ L, will_skip rem rs.pending.invoices inv = true) →
      run_loop rem projId userId rs L =
        { rs with
          skipped_count := rs.skipped_count + L.length
          outcomes := rs.outcomes ++ List.replicate L.length Outcome.skipped }
  | [], rs, _ => by simp [run_loop]
  | inv0 :: rest, rs, hall => by
    have hs := step_invoice_of_will_skip rem projId userId rs inv0
      (hall inv0 (List.mem_cons_self _ _))
    rw [run_loop_cons, hs]
    have hrest := run_loop_all_skip rem projId userId rest
      { rs with
        skipped_count := rs.skipped_count + 1
        outcomes := rs.outcomes ++ [Outcome.skipped] }
      (fun inv hinv => hall inv (List.mem_cons_of_mem _ hinv))
    rw [hrest]
    have hnat : rs.skipped_count + 1 + rest.length = rs.skipped_count + (rest.length + 1) := by
      omega
    simp [List.replicate_succ, List.length_cons, hnat, List.append_assoc]

/-- Resolving the default project and user never touches the invoice table. -/
theorem ensure_defaults_frame (s : DBState) :
    (ensure_defaults s).2.2.invoices = s.invoices := by
  unfold ensure_defaults get_default_project get_default_user
  simp only []
  split <;> split <;> rfl

/-! ## C1: duplicate skip and second-run idempotency -/

/-- C1 (amended): an invoice whose document number matches an Invoice row
already in the session store is recorded as Skipped with no row created or
updated; and provided the first run reported no failures, a second import
run against the unchanged remote data set commits nothing
— the returned store is exactly the store the first run left — and reports
every invoice Skipped. -/
theorem import_idempotent (cfg : Config) (rem : Remote) (limit : Option Nat)
    (init db1 : DBState) (rep1 : RunReport)
    (h1 : process_imports cfg true rem limit init = (rep1, db1))
    (hk : all_qb_keys_present cfg = true)
    (hf : rep1.failures = 0) :
    (∀ (projId userId : Nat) (rs : RunState) (inv : QBInvoice),
        strTruthy inv.docNumber = true →
        (rs.pending.invoices.find?
            (fun r => r.invoice_number == inv.docNumber.getD "")).isSome = true →
        step_invoice rem projId userId rs inv =
          { rs with
            skipped_count := rs.skipped_count + 1
            outcomes := rs.outcomes ++ [Outcome.skipped] })
    ∧ process_imports cfg true rem limit db1 =
        (RunReport.finished 0 (get_invoices rem limit).length 0
          (List.replicate (get_invoices rem limit).length Outcome.skipped), db1) := by
  constructor
  · intro projId userId rs inv _hd hdup
    exact step_invoice_of_will_skip rem projId userId rs inv
      (will_skip_intro rem rs.pending.invoices inv (Or.inl hdup))
  · unfold process_imports at h1
    simp only [hk, Bool.not_true, Bool.false_eq_true, if_false] at h1
    simp only [Prod.mk.injEq] at h1
    obtain ⟨hrep, hdb⟩ := h1
    rw [← hrep] at hf
    simp only [RunReport.failures] at hf
    have ht : ((⟨init, (ensure_defaults init).2.2, 0, 0, 0, []⟩ :
        RunState)).pending.invoices
        = ((⟨init, (ensure_defaults init).2.2, 0, 0, 0, []⟩ : RunState)).committed.invoices :=
      ensure_defaults_frame init
    have hinv := run_loop_invariant rem (ensure_defaults init).1 (ensure_defaults init).2.1
      (get_invoices rem limit) ⟨init, (ensure_defaults init).2.2, 0, 0, 0, []⟩ ht
    have hws := hinv.2.2.2 hf
    rw [hdb] at hws
    unfold process_imports
    simp only [hk, Bool.not_true, Bool.false_eq_true, if_false]
    rw [run_loop_all_skip rem (ensure_defaults db1).1 (ensure_defaults db1).2.1
      (get_invoices rem limit) ⟨db1, (ensure_defaults db1).2.2, 0, 0, 0, []⟩
      (fun inv hinv2 => by
        show will_skip rem (ensure_defaults db1).2.2.invoices inv = true
        rw [ensure_defaults_frame db1]
        exact hws inv hinv2)]
    simp

/-- Witness for C1: after the sample import, the sample invoice is a
duplicate and a full second run reports one Skipped invoice, returning the
store unchanged. -/
theorem import_idempotent_witness :
    step_invoice remSample 0 1 rsAfterSample invSample =
      { rsAfterSample with
        skipped_count := rsAfterSample.skipped_count + 1
        outcomes := rsAfterSample.outcomes ++ [Outcome.skipped] }
    ∧ process_imports cfgFull true remSample none dbAfterSample =
        (RunReport.finished 0 (get_invoices remSample none).length 0
          (List.replicate (get_invoices remSample none).length Outcome.skipped),
         dbAfterSample) := by
  have h := import_idempotent cfgFull remSample none dbEmpty dbAfterSample
    (RunReport.finished 1 0 0 [Outcome.succeeded]) rfl (by decide) rfl
  exact ⟨h.1 0 1 rsAfterSample invSample (by decide) (by decide), h.2⟩

/-- Counterexample to C1 as stated: on a remote world whose single invoice
deterministically fails (its linked order carries no vendor reference),
the second run against the unchanged remote data set reports that invoice
Failed again — not Skipped. -/
theorem import_idempotent_cex :
    process_imports cfgFull true remNoVendor none dbEmpty
      = (RunReport.finished 0 0 1
          [Outcome.failed "LPO PO9 has no Supplier (VendorRef)."], dbEmpty)
    ∧ process_imports cfgFull true remNoVendor none
        (process_imports cfgFull true remNoVendor none dbEmpty).2
      = (RunReport.finished 0 0 1
          [Outcome.failed "LPO PO9 has no Supplier (VendorRef)."], dbEmpty) :=
  ⟨rfl, rfl⟩

end QBImport

